import Mathlib

/-!
Shallow embedding of the `circuitbreaker` package (breaker.go and the
variant breaker in twostep_breaker.go).

Machine integers: `uint32` counters and the `uint64` generation are
modelled as `Nat` with explicit wrap-around on increment (`inc32`,
`inc64`).  Go `time.Time` / `time.Duration` are modelled as `Int`
(nanoseconds); the zero `time.Time` is `0`, `IsZero` is `= 0` and
`Before` is `<`.  The mutex is irrelevant in a sequential model: every
exported operation is one atomic step.  The `onStateChange` callback is
modelled by a ghost trace field `evs` that records every `(from, to)`
pair with which the callback is invoked.
-/

namespace Gobreaker

def U32 : Nat := 4294967296
def U64 : Nat := 18446744073709551616

/-- `x+1` on a `uint32`. -/
def inc32 (n : Nat) : Nat := (n + 1) % U32

/-- `x+1` on a `uint64`. -/
def inc64 (n : Nat) : Nat := (n + 1) % U64

/-- Go `time.Time` as nanoseconds; `0` is the zero time. -/
abbrev Time := Int

/-- Go `time.Duration` as nanoseconds. -/
abbrev Duration := Int

/-- One second, in nanoseconds. -/
def second : Duration := 1000000000

/-- `type State int` with its three constants. -/
inductive State where
  | closed
  | halfOpen
  | opened
deriving DecidableEq

/-- `type Counts struct` from breaker.go. -/
structure Counts where
  currRequests : Nat
  totalSuccesses : Nat
  totalFailures : Nat
  consecutiveSuccesses : Nat
  consecutiveFailures : Nat
deriving DecidableEq

/-- `Counts{}`: the Go zero value. -/
def Counts.zero : Counts := ⟨0, 0, 0, 0, 0⟩

/-- `func (c *Counts) onSuccess()` from twostep_breaker.go. -/
def Counts.onSuccess (c : Counts) : Counts :=
  { c with totalSuccesses := inc32 c.totalSuccesses
           consecutiveSuccesses := inc32 c.consecutiveSuccesses
           consecutiveFailures := 0 }

/-- `func (c *Counts) onFailure()` from twostep_breaker.go. -/
def Counts.onFailure (c : Counts) : Counts :=
  { c with totalFailures := inc32 c.totalFailures
           consecutiveFailures := inc32 c.consecutiveFailures
           consecutiveSuccesses := 0 }

/-- `func (c *Counts) clear()` from twostep_breaker.go. -/
def Counts.clear (_ : Counts) : Counts := ⟨0, 0, 0, 0, 0⟩

/-- Go `error` results of a request: `nil` or some error value. -/
abbrev GoErr := Option String

/-- The two admission errors `ErrOpenState` / `ErrTooManyRequests`. -/
inductive AdmitErr where
  | errOpenState
  | errTooManyRequests
deriving DecidableEq

/-- The default `ShouldTrip`: `counts.ConsecutiveFailures > 5`. -/
def defaultShouldTrip (counts : Counts) : Bool :=
  counts.consecutiveFailures > 5

/-- The default `IsSuccessful`: `err == nil`. -/
def defaultIsSuccessful (err : GoErr) : Bool :=
  err = none

/-- `type Config struct` (callback fields optional, as `nil` in Go). -/
structure Config where
  maxRequests : Nat
  interval : Duration
  timeout : Duration
  shouldTrip : Option (Counts → Bool)
  isSuccessful : Option (GoErr → Bool)

/-- The Go zero-value `Config{}`. -/
def Config.empty : Config := ⟨0, 0, 0, none, none⟩

/-- `func (cfg *Config) setDefaults()` from breaker.go. -/
def Config.setDefaults (cfg : Config) : Config :=
  { cfg with
    maxRequests := if cfg.maxRequests = 0 then 1 else cfg.maxRequests
    interval := if cfg.interval ≤ 0 then 0 else cfg.interval
    timeout := if cfg.timeout ≤ 0 then 60 * second else cfg.timeout
    shouldTrip := some (cfg.shouldTrip.getD defaultShouldTrip)
    isSuccessful := some (cfg.isSuccessful.getD defaultIsSuccessful) }

/-- `type CircuitBreaker struct`: resolved policy plus the mutable
state/generation/counts/expiry tuple; `evs` is a ghost trace of the
`onStateChange` invocations. -/
structure CB where
  maxRequests : Nat
  interval : Duration
  timeout : Duration
  shouldTrip : Counts → Bool
  isSuccessful : GoErr → Bool
  state : State
  generation : Nat
  counts : Counts
  expiry : Time
  evs : List (State × State)

/-- The expiry assigned by the `switch cb.state` in `toNewGeneration`. -/
def nextExpiry (state : State) (interval timeout : Duration) (now : Time) : Time :=
  match state with
  | State.closed => if interval = 0 then 0 else now + interval
  | State.opened => now + timeout
  | State.halfOpen => 0

/-- `func (cb *CircuitBreaker) toNewGeneration(now time.Time)`: bump the
generation, clear the counts, recompute the expiry from the (unchanged)
state. -/
def toNewGeneration (cb : CB) (now : Time) : CB :=
  { cb with generation := inc64 cb.generation
            counts := Counts.zero
            expiry := nextExpiry cb.state cb.interval cb.timeout now }

/-- `func (cb *CircuitBreaker) setState(newState State, now time.Time)`;
the `onStateChange` call is recorded in the ghost trace `evs`. -/
def setState (cb : CB) (newState : State) (now : Time) : CB :=
  if cb.state = newState then cb
  else
    let prev := cb.state
    let cb2 := toNewGeneration { cb with state := newState } now
    { cb2 with evs := cb2.evs ++ [(prev, newState)] }

/-- The mutation performed by
`func (cb *CircuitBreaker) currentState(now time.Time)`: the lazy
time-based transition check. -/
def evalState (cb : CB) (now : Time) : CB :=
  match cb.state with
  | State.closed =>
      if cb.expiry ≠ 0 ∧ cb.expiry < now then toNewGeneration cb now else cb
  | State.opened =>
      if cb.expiry < now then setState cb State.halfOpen now else cb
  | State.halfOpen => cb

/-- `currentState` proper: mutate lazily, then return `(state, generation)`. -/
def currentState (cb : CB) (now : Time) : CB × State × Nat :=
  let cb := evalState cb now
  (cb, cb.state, cb.generation)

/-- `func NewCircuitBreaker(cfg Config) *CircuitBreaker`
(state/generation/counts/expiry start at Go zero values, then
`toNewGeneration` runs once). -/
def NewCircuitBreaker (cfg : Config) (now : Time) : CB :=
  let cfg := cfg.setDefaults
  let cb : CB :=
    { maxRequests := cfg.maxRequests
      interval := cfg.interval
      timeout := cfg.timeout
      shouldTrip := cfg.shouldTrip.getD defaultShouldTrip
      isSuccessful := cfg.isSuccessful.getD defaultIsSuccessful
      state := State.closed
      generation := 0
      counts := Counts.zero
      expiry := 0
      evs := [] }
  toNewGeneration cb now

/-- `func (cb *CircuitBreaker) State() State`: triggers the lazy check. -/
def StateOp (cb : CB) (now : Time) : CB × State :=
  let r := currentState cb now
  (r.1, r.2.1)

/-- `func (cb *CircuitBreaker) Counts() Counts`: returns the internal
counters directly (no `currentState` call). -/
def CountsOp (cb : CB) : Counts :=
  cb.counts

/-- `func (cb *CircuitBreaker) beforeRequest() (uint64, error)`. -/
def beforeRequest (cb : CB) (now : Time) : CB × Nat × Option AdmitErr :=
  let cb := evalState cb now
  if cb.state = State.opened then
    (cb, cb.generation, some AdmitErr.errOpenState)
  else if cb.state = State.halfOpen ∧ cb.counts.currRequests ≥ cb.maxRequests then
    (cb, cb.generation, some AdmitErr.errTooManyRequests)
  else
    ({ cb with counts := { cb.counts with currRequests := inc32 cb.counts.currRequests } },
     cb.generation, none)

/-- `func (cb *CircuitBreaker) afterRequest(before uint64, success bool)`
as written in breaker.go (success counters updated inline, then the
`ConsecutiveSuccesses >= maxRequests` check in every state). -/
def afterRequest (cb : CB) (now : Time) (before : Nat) (success : Bool) : CB :=
  let cb := evalState cb now
  if cb.generation ≠ before then cb
  else if success then
    let cb := { cb with counts :=
      { cb.counts with
        totalSuccesses := inc32 cb.counts.totalSuccesses
        consecutiveSuccesses := inc32 cb.counts.consecutiveSuccesses
        consecutiveFailures := 0 } }
    if cb.counts.consecutiveSuccesses ≥ cb.maxRequests then
      setState cb State.closed now
    else cb
  else
    match cb.state with
    | State.closed =>
        let cb := { cb with counts :=
          { cb.counts with
            totalFailures := inc32 cb.counts.totalFailures
            consecutiveFailures := inc32 cb.counts.consecutiveFailures
            consecutiveSuccesses := 0 } }
        if cb.shouldTrip cb.counts then setState cb State.opened now else cb
    | State.halfOpen => setState cb State.opened now
    | State.opened => cb

/-- `func (cb *CircuitBreaker) onSuccess(state State, now time.Time)`
from the twostep_breaker.go variant. -/
def onSuccessV (cb : CB) (state : State) (now : Time) : CB :=
  match state with
  | State.closed => { cb with counts := cb.counts.onSuccess }
  | State.halfOpen =>
      let cb := { cb with counts := cb.counts.onSuccess }
      if cb.counts.consecutiveSuccesses ≥ cb.maxRequests then
        setState cb State.closed now
      else cb
  | State.opened => cb

/-- `func (cb *CircuitBreaker) onFailure(state State, now time.Time)`
from the twostep_breaker.go variant. -/
def onFailureV (cb : CB) (state : State) (now : Time) : CB :=
  match state with
  | State.closed =>
      let cb := { cb with counts := cb.counts.onFailure }
      if cb.shouldTrip cb.counts then setState cb State.opened now else cb
  | State.halfOpen => setState cb State.opened now
  | State.opened => cb

/-- `func (cb *CircuitBreaker) afterRequest(before uint64, success bool)`
from the twostep_breaker.go variant (dispatches to the per-state
`onSuccess`/`onFailure` helpers). -/
def afterRequestV (cb : CB) (now : Time) (before : Nat) (success : Bool) : CB :=
  let r := currentState cb now
  let cb := r.1
  let state := r.2.1
  let generation := r.2.2
  if generation ≠ before then cb
  else if success then onSuccessV cb state now
  else onFailureV cb state now

/-- Behaviour of the caller-supplied `req func() (interface{}, error)`:
it either returns normally (with a `nil` or non-`nil` error) or panics. -/
inductive ReqOutcome where
  | normal (err : GoErr)
  | panics (msg : String)

/-- Result of `Do` as seen by the caller: immediate rejection, normal
return of the request's error, or the re-raised panic. -/
inductive DoResult where
  | rejected (e : AdmitErr)
  | returned (err : GoErr)
  | panicked (msg : String)
deriving DecidableEq

/-- `func (cb *CircuitBreaker) Do(req ...)`: admission at time `nowB`,
outcome report at time `nowA`.  On a panic the deferred `recover`
reports `false` (bypassing `isSuccessful`) and re-raises the same
panic; on normal return the outcome is `cb.isSuccessful(err)`. -/
def Do (cb : CB) (nowB nowA : Time) (req : ReqOutcome) : CB × DoResult :=
  match beforeRequest cb nowB with
  | (cb1, _, some e) => (cb1, DoResult.rejected e)
  | (cb1, generation, none) =>
    match req with
    | ReqOutcome.panics m =>
        (afterRequest cb1 nowA generation false, DoResult.panicked m)
    | ReqOutcome.normal err =>
        (afterRequest cb1 nowA generation (cb.isSuccessful err), DoResult.returned err)

/-- `n` outcome reports in a row, all with token `before` and outcome
`success`, all observed at time `now`. -/
def reportN (cb : CB) (now : Time) (before : Nat) (success : Bool) (n : Nat) : CB :=
  (fun c => afterRequest c now before success)^[n] cb

/-- `n` admission checks in a row, all observed at time `now` (results
discarded, only the breaker evolves). -/
def admitN (cb : CB) (now : Time) (n : Nat) : CB :=
  (fun c => (beforeRequest c now).1)^[n] cb

/-- A breaker with explicit field values (ghost trace empty). -/
def mkCB (st : State) (g : Nat) (c : Counts) (exp : Time)
    (maxR : Nat) (intv tmo : Duration)
    (trip : Counts → Bool) (isOk : GoErr → Bool) : CB :=
  { maxRequests := maxR, interval := intv, timeout := tmo
    shouldTrip := trip, isSuccessful := isOk
    state := st, generation := g, counts := c, expiry := exp, evs := [] }

/-- Closed breaker, generation 5, fresh counts, interval 30 with expiry
at 30: scenario for a report that goes stale via the interval reset. -/
def staleBase : CB :=
  mkCB State.closed 5 Counts.zero 30 1 30 60 defaultShouldTrip defaultIsSuccessful

/-- Closed breaker whose reset interval (expiry 30) has elapsed but whose
counts are still the old generation's. -/
def countsStale : CB :=
  mkCB State.closed 4 ⟨2, 1, 1, 0, 1⟩ 30 1 30 60 defaultShouldTrip defaultIsSuccessful

/-- Open breaker that tripped at `t0 = 100` with `timeout = 60`
(`expiry = 160`). -/
def openAt160 : CB :=
  mkCB State.opened 3 Counts.zero 160 1 0 60 defaultShouldTrip defaultIsSuccessful

/-- Open breaker that tripped at `t0 = 100` with `timeout = 60` and
`maxRequests = 2`. -/
def openAt160Max2 : CB :=
  mkCB State.opened 3 Counts.zero 160 2 0 60 defaultShouldTrip defaultIsSuccessful

/-- Closed breaker whose generation started at `s = 100` with
`interval = 30` (`expiry = 130`) and non-zero counts. -/
def closedAt130 : CB :=
  mkCB State.closed 4 ⟨2, 1, 1, 0, 1⟩ 130 1 30 60 defaultShouldTrip defaultIsSuccessful

/-- Open breaker whose current generation equals a report token: the
configuration on which the two `afterRequest` variants diverge. -/
def openGen7 : CB :=
  mkCB State.opened 7 Counts.zero 200 1 0 60 defaultShouldTrip defaultIsSuccessful

/-- Half-open breaker with two consecutive successes already recorded
(`maxRequests = 3`). -/
def halfOpenTwoSucc : CB :=
  mkCB State.halfOpen 9 ⟨2, 2, 0, 2, 0⟩ 0 3 30 90 defaultShouldTrip defaultIsSuccessful

/-- Half-open breaker at a fresh generation (`maxRequests = 3`). -/
def halfOpenFresh : CB :=
  mkCB State.halfOpen 11 Counts.zero 0 3 0 90 defaultShouldTrip defaultIsSuccessful

/-- Closed breaker whose classifier counts every outcome as a success. -/
def alwaysOkCB : CB :=
  mkCB State.closed 1 Counts.zero 0 1 0 60 defaultShouldTrip (fun _ => true)

/-- Breaker states reachable through the public operations: construction,
admission checks, outcome reports (either `afterRequest` variant, any
token), and state queries, at arbitrary times. -/
inductive Reachable : CB → Prop where
  | init (cfg : Config) (now : Time) : Reachable (NewCircuitBreaker cfg now)
  | allow (cb : CB) (now : Time) :
      Reachable cb → Reachable (beforeRequest cb now).1
  | report (cb : CB) (now : Time) (g : Nat) (s : Bool) :
      Reachable cb → Reachable (afterRequest cb now g s)
  | reportV (cb : CB) (now : Time) (g : Nat) (s : Bool) :
      Reachable cb → Reachable (afterRequestV cb now g s)
  | observe (cb : CB) (now : Time) :
      Reachable cb → Reachable (StateOp cb now).1

/-- At most one of the two consecutive counters is non-zero. -/
def ConsecInv (cb : CB) : Prop :=
  cb.counts.consecutiveSuccesses = 0 ∨ cb.counts.consecutiveFailures = 0

lemma evalState_halfOpen (cb : CB) (now : Time) (h : cb.state = State.halfOpen) :
    evalState cb now = cb := by
  simp [evalState, h]

lemma evalState_closed_skip (cb : CB) (now : Time) (h : cb.state = State.closed)
    (hc : ¬(cb.expiry ≠ 0 ∧ cb.expiry < now)) : evalState cb now = cb := by
  simp only [evalState, h]
  rw [if_neg hc]

lemma evalState_closed_reset (cb : CB) (now : Time) (h : cb.state = State.closed)
    (h0 : cb.expiry ≠ 0) (hlt : cb.expiry < now) :
    evalState cb now = toNewGeneration cb now := by
  simp [evalState, h, h0, hlt]

lemma evalState_open_stay (cb : CB) (now : Time) (h : cb.state = State.opened)
    (hc : ¬ cb.expiry < now) : evalState cb now = cb := by
  simp [evalState, h, hc]

lemma evalState_open_half (cb : CB) (now : Time) (h : cb.state = State.opened)
    (hlt : cb.expiry < now) : evalState cb now = setState cb State.halfOpen now := by
  simp [evalState, h, hlt]

lemma afterRequest_stale (cb : CB) (now : Time) (g : Nat) (s : Bool)
    (hg : (evalState cb now).generation ≠ g) :
    afterRequest cb now g s = evalState cb now := by
  simp [afterRequest, hg]

/-- C1, counterexample: an admission on `staleBase` at time 10 returns
token 5; the report at time 100 is stale (the interval reset fires
during its lazy evaluation, moving to generation 6), yet the report call
leaves the breaker with a changed generation and cleared counts — not
"exactly as they were before the report". -/
theorem stale_report_mutates :
    (beforeRequest staleBase 10).2.2 = none ∧
    (beforeRequest staleBase 10).2.1 = 5 ∧
    (evalState (beforeRequest staleBase 10).1 100).generation ≠ 5 ∧
    (afterRequest (beforeRequest staleBase 10).1 100 5 true).generation ≠
      (beforeRequest staleBase 10).1.generation ∧
    (afterRequest (beforeRequest staleBase 10).1 100 5 true).counts ≠
      (beforeRequest staleBase 10).1.counts := by
  decide

/-- C1, amended: a report whose token differs from the generation
obtained by the lazy-transition evaluation leaves the breaker exactly as
that lazy evaluation alone leaves it; in particular, when the lazy
evaluation changes nothing (the generation had already moved before the
report call), the report changes nothing at all. -/
theorem stale_report_noop_after_eval (cb : CB) (now : Time) (g : Nat) (s : Bool)
    (hg : (evalState cb now).generation ≠ g) :
    afterRequest cb now g s = evalState cb now ∧
    (evalState cb now = cb → afterRequest cb now g s = cb) := by
  have h1 := afterRequest_stale cb now g s hg
  exact ⟨h1, fun he => h1.trans he⟩

/-- C1, witness: a stale report (token 99 against generation 5, no
pending time transition) is a complete no-op. -/
theorem stale_report_noop_after_eval_witness :
    afterRequest staleBase 10 99 true = evalState staleBase 10 ∧
    (evalState staleBase 10 = staleBase → afterRequest staleBase 10 99 true = staleBase) :=
  stale_report_noop_after_eval staleBase 10 99 true (by decide)

/-- C2, counterexample: on `countsStale` the reset interval has elapsed
(expiry 30 < now 100) and the lazy transition would clear the counts,
but the `Counts` query returns the stored, non-zero counters of the old
generation — it does not evaluate the lazy transition first. -/
theorem counts_query_not_lazy :
    (countsStale.expiry ≠ 0 ∧ countsStale.expiry < 100) ∧
    (evalState countsStale 100).counts = Counts.zero ∧
    CountsOp countsStale = countsStale.counts ∧
    CountsOp countsStale ≠ Counts.zero := by
  decide

/-- C2, amended: `Counts` returns the stored counters directly, without
evaluating the lazy transition; the `State` query does evaluate it, so
once any transition-evaluating operation has run after the reset
interval elapsed while Closed, `Counts` returns the cleared counts. -/
theorem counts_raw_state_lazy (cb : CB) (now : Time)
    (hs : cb.state = State.closed) (h0 : cb.expiry ≠ 0) (hlt : cb.expiry < now) :
    CountsOp cb = cb.counts ∧
    CountsOp (StateOp cb now).1 = Counts.zero := by
  refine ⟨rfl, ?_⟩
  have he := evalState_closed_reset cb now hs h0 hlt
  simp [CountsOp, StateOp, currentState, he, toNewGeneration]

/-- C2, witness at `countsStale`, time 100. -/
theorem counts_raw_state_lazy_witness :
    CountsOp countsStale = countsStale.counts ∧
    CountsOp (StateOp countsStale 100).1 = Counts.zero :=
  counts_raw_state_lazy countsStale 100 rfl (by decide) (by decide)

/-- C4: from HalfOpen, a single failure report carrying the current
generation token unconditionally transitions to Open — whatever the
accumulated consecutive successes — starting a new generation with all
counts cleared and expiry `now + timeout`. -/
theorem halfOpen_failure_reopens (cb : CB) (now : Time) (g : Nat)
    (hs : cb.state = State.halfOpen) (hg : cb.generation = g) :
    (afterRequest cb now g false).state = State.opened ∧
    (afterRequest cb now g false).generation = inc64 cb.generation ∧
    (afterRequest cb now g false).counts = Counts.zero ∧
    (afterRequest cb now g false).expiry = now + cb.timeout := by
  have he := evalState_halfOpen cb now hs
  simp [afterRequest, he, hg, hs, setState, toNewGeneration, nextExpiry]

/-- C4, witness: `halfOpenTwoSucc` has two consecutive successes, yet one
failure report re-opens it with a fresh generation. -/
theorem halfOpen_failure_reopens_witness :
    (afterRequest halfOpenTwoSucc 200 9 false).state = State.opened ∧
    (afterRequest halfOpenTwoSucc 200 9 false).generation = inc64 halfOpenTwoSucc.generation ∧
    (afterRequest halfOpenTwoSucc 200 9 false).counts = Counts.zero ∧
    (afterRequest halfOpenTwoSucc 200 9 false).expiry = 200 + halfOpenTwoSucc.timeout :=
  halfOpen_failure_reopens halfOpenTwoSucc 200 9 rfl rfl

/-- C9: when an admitted request panics, `Do` reports a failure outcome
(the literal `false`, bypassing the `isSuccessful` classifier) against
the admission's generation token, and re-raises the same panic value
unchanged. -/
theorem do_panic_reports_failure (cb : CB) (nowB nowA : Time) (m : String)
    (h : (beforeRequest cb nowB).2.2 = none) :
    Do cb nowB nowA (ReqOutcome.panics m) =
      (afterRequest (beforeRequest cb nowB).1 nowA (beforeRequest cb nowB).2.1 false,
       DoResult.panicked m) := by
  unfold Do
  rcases hbr : beforeRequest cb nowB with ⟨cb1, g, e⟩
  rw [hbr] at h
  simp only at h
  subst h
  rfl

/-- C9, witness: on a breaker whose classifier calls every outcome a
success, a panicking request is still recorded as a failure and the
panic value "oops" is re-raised unchanged. -/
theorem do_panic_reports_failure_witness :
    Do alwaysOkCB 10 10 (ReqOutcome.panics "oops") =
      (afterRequest (beforeRequest alwaysOkCB 10).1 10 (beforeRequest alwaysOkCB 10).2.1 false,
       DoResult.panicked "oops") :=
  do_panic_reports_failure alwaysOkCB 10 10 "oops" (by decide)

lemma setState_self (cb : CB) (st : State) (now : Time) (h : cb.state = st) :
    setState cb st now = cb := by
  simp [setState, h]

lemma reportN_succ (cb : CB) (now : Time) (g : Nat) (s : Bool) (n : Nat) :
    reportN cb now g s (n + 1) = afterRequest (reportN cb now g s n) now g s := by
  unfold reportN
  rw [Function.iterate_succ_apply']

lemma admitN_succ (cb : CB) (now : Time) (n : Nat) :
    admitN cb now (n + 1) = (beforeRequest (admitN cb now n) now).1 := by
  unfold admitN
  rw [Function.iterate_succ_apply']

/-- C7, counterexample: `closedAt130` started its generation at `s = 100`
with `interval = 30` (expiry 130); the claim says the first observation
at `t ≥ 130` clears the counts and increments the generation, but the
observation at exactly `t = 130` changes nothing: `expiry.Before(now)`
is strict. -/
theorem closed_reset_boundary_cex :
    closedAt130.expiry = 100 + 30 ∧ closedAt130.interval = 30 ∧
    (evalState closedAt130 130).counts = closedAt130.counts ∧
    closedAt130.counts ≠ Counts.zero ∧
    (evalState closedAt130 130).generation = closedAt130.generation ∧
    (evalState closedAt130 130).state = State.closed := by
  decide

/-- C7, amended: for a Closed breaker with `resetInterval = T > 0` whose
generation started at `s` (expiry `s + T`), every observation at
`t ≤ s + T` changes nothing, and the first observation at `t > s + T`
clears the counts to zero and increments the generation while leaving
the state Closed, with no `onStateChange` notification. -/
theorem closed_interval_reset (cb : CB) (now s T : Int)
    (hs : cb.state = State.closed) (hT : cb.interval = T) (hTpos : 0 < T)
    (hspos : 0 ≤ s) (hexp : cb.expiry = s + T) :
    (now ≤ s + T → evalState cb now = cb) ∧
    (s + T < now →
      (evalState cb now).state = State.closed ∧
      (evalState cb now).counts = Counts.zero ∧
      (evalState cb now).generation = inc64 cb.generation ∧
      (evalState cb now).expiry = now + T ∧
      (evalState cb now).evs = cb.evs) := by
  constructor
  · intro hle
    refine evalState_closed_skip cb now hs ?_
    rw [hexp]
    intro hcon
    exact absurd hcon.2 (not_lt.mpr hle)
  · intro hlt
    have h0 : cb.expiry ≠ 0 := by
      rw [hexp]
      have hpos : (0 : Int) < s + T := by omega
      exact hpos.ne'
    have he := evalState_closed_reset cb now hs h0 (by rw [hexp]; exact hlt)
    rw [he]
    have hT0 : ¬ T = 0 := by omega
    simp [toNewGeneration, nextExpiry, hs, hT, hT0]

/-- C7, witness: on `closedAt130` the observation at `t = 131` clears the
counts, bumps the generation, keeps the state Closed and emits no
notification. -/
theorem closed_interval_reset_witness :
    (evalState closedAt130 131).state = State.closed ∧
    (evalState closedAt130 131).counts = Counts.zero ∧
    (evalState closedAt130 131).generation = inc64 closedAt130.generation ∧
    (evalState closedAt130 131).expiry = 131 + 30 ∧
    (evalState closedAt130 131).evs = closedAt130.evs :=
  (closed_interval_reset closedAt130 131 100 30 rfl rfl (by decide) (by decide)
    (by decide)).2 (by decide)

lemma reportN_closed_fail (cb : CB) (now : Time)
    (hs : cb.state = State.closed) (hexp : cb.expiry = 0)
    (hcf : cb.counts.consecutiveFailures = 0)
    (htrip : cb.shouldTrip = defaultShouldTrip) :
    ∀ k, k ≤ 5 →
      (reportN cb now cb.generation false k).state = State.closed ∧
      (reportN cb now cb.generation false k).expiry = 0 ∧
      (reportN cb now cb.generation false k).generation = cb.generation ∧
      (reportN cb now cb.generation false k).counts.consecutiveFailures = k ∧
      (reportN cb now cb.generation false k).shouldTrip = defaultShouldTrip := by
  intro k
  induction k with
  | zero => exact fun _ => ⟨hs, hexp, rfl, hcf, htrip⟩
  | succ n ih =>
      intro hle
      obtain ⟨h1, h2, h3, h4, h5⟩ := ih (by omega)
      rw [reportN_succ]
      set c := reportN cb now cb.generation false n with hc
      have he : evalState c now = c := evalState_closed_skip c now h1 (by simp [h2])
      have hn5 : ¬ defaultShouldTrip { c.counts with
          totalFailures := inc32 c.counts.totalFailures
          consecutiveFailures := inc32 c.counts.consecutiveFailures
          consecutiveSuccesses := 0 } = true := by
        simp [defaultShouldTrip, h4, inc32, U32]
        omega
      simp only [afterRequest, he, h3, ne_eq, not_true_eq_false, if_false,
        Bool.false_eq_true, h1, h5, hn5]
      simp [h1, h2, h3, h4, h5, inc32, U32]
      omega

/-- C6: with the default trip policy (`consecutiveFailures > 5`), a
Closed breaker is still Closed after 5 consecutive reported failures and
transitions to Open exactly on the 6th. -/
theorem default_trip_sixth_failure (cb : CB) (now : Time)
    (hs : cb.state = State.closed) (hexp : cb.expiry = 0)
    (hcf : cb.counts.consecutiveFailures = 0)
    (htrip : cb.shouldTrip = defaultShouldTrip) :
    (reportN cb now cb.generation false 5).state = State.closed ∧
    (reportN cb now cb.generation false 6).state = State.opened := by
  obtain ⟨h1, h2, h3, h4, h5⟩ := reportN_closed_fail cb now hs hexp hcf htrip 5 (by omega)
  refine ⟨h1, ?_⟩
  rw [reportN_succ]
  set c := reportN cb now cb.generation false 5 with hc
  have he : evalState c now = c := evalState_closed_skip c now h1 (by simp [h2])
  have ht : defaultShouldTrip { c.counts with
      totalFailures := inc32 c.counts.totalFailures
      consecutiveFailures := inc32 c.counts.consecutiveFailures
      consecutiveSuccesses := 0 } = true := by
    simp [defaultShouldTrip, h4, inc32, U32]
  simp only [afterRequest, he, h3, ne_eq, not_true_eq_false, if_false,
    Bool.false_eq_true, h1, h5, ht, if_true]
  simp [setState, toNewGeneration, h1]

/-- C6, witness: the default-config breaker built at time 10. -/
theorem default_trip_sixth_failure_witness :
    (reportN (NewCircuitBreaker Config.empty 10) 10
      (NewCircuitBreaker Config.empty 10).generation false 5).state = State.closed ∧
    (reportN (NewCircuitBreaker Config.empty 10) 10
      (NewCircuitBreaker Config.empty 10).generation false 6).state = State.opened :=
  default_trip_sixth_failure (NewCircuitBreaker Config.empty 10) 10 rfl (by decide)
    (by decide) rfl

lemma afterRequest_success_closed (cb : CB) (now : Time) (g : Nat)
    (hg : (evalState cb now).generation = g)
    (hcl : (evalState cb now).state = State.closed) :
    afterRequest cb now g true =
      { evalState cb now with counts := (evalState cb now).counts.onSuccess } := by
  revert hg hcl
  unfold afterRequest
  generalize evalState cb now = c
  obtain ⟨mr, iv, tm, trip, isok, st, gen, cnts, exp, evts⟩ := c
  intro hg hcl
  simp only at hg hcl
  subst hg hcl
  simp [Counts.onSuccess, setState]

lemma afterRequest_failure_eq (cb : CB) (now : Time) (g : Nat) :
    afterRequest cb now g false = afterRequestV cb now g false := by
  unfold afterRequest afterRequestV currentState
  generalize evalState cb now = c
  obtain ⟨mr, iv, tm, trip, isok, st, gen, cnts, exp, evts⟩ := c
  by_cases hg : gen = g
  · subst hg
    cases st <;> simp [onFailureV, Counts.onFailure]
  · simp [hg]

lemma afterRequest_success_eq (cb : CB) (now : Time) (g : Nat)
    (hno : (evalState cb now).state ≠ State.opened) :
    afterRequest cb now g true = afterRequestV cb now g true := by
  revert hno
  unfold afterRequest afterRequestV currentState
  generalize evalState cb now = c
  obtain ⟨mr, iv, tm, trip, isok, st, gen, cnts, exp, evts⟩ := c
  intro hno
  simp only at hno
  by_cases hg : gen = g
  · subst hg
    cases st
    · simp [onSuccessV, Counts.onSuccess, setState]
    · simp [onSuccessV, Counts.onSuccess]
    · exact absurd rfl hno
  · simp [hg]

/-- C10, counterexample: on an Open breaker whose current generation
equals the report token (`openGen7`, generation 7, expiry not yet
passed), a success report makes the breaker.go `afterRequest` record the
success and transition Open → Closed with a new generation, while the
per-state-helper variant leaves the breaker untouched — the two
implementations are not equivalent for every starting state. -/
theorem variants_diverge_open_success :
    openGen7.state = State.opened ∧
    (afterRequest openGen7 50 7 true).state = State.closed ∧
    (afterRequestV openGen7 50 7 true).state = State.opened ∧
    (afterRequest openGen7 50 7 true).generation ≠
      (afterRequestV openGen7 50 7 true).generation := by
  decide

/-- C10, amended: the two `afterRequest` implementations agree whenever
the lazily-evaluated state is not Open, or the generation differs from
the token, or the report is a failure — which covers every report made
with a token obtained from an admission, since entering Open starts a
new generation.  Moreover a success reported while Closed that reaches
`maxRequests` consecutive successes changes no state, generation, expiry
or notification trace, and only applies the success increments to the
counts: the same-state transition is a no-op. -/
theorem afterRequest_variants_equiv (cb : CB) (now : Time) (g : Nat) (s : Bool)
    (h : (evalState cb now).state ≠ State.opened ∨
         (evalState cb now).generation ≠ g ∨ s = false) :
    afterRequest cb now g s = afterRequestV cb now g s ∧
    ((evalState cb now).state = State.closed → (evalState cb now).generation = g →
      (afterRequest cb now g true).state = (evalState cb now).state ∧
      (afterRequest cb now g true).generation = (evalState cb now).generation ∧
      (afterRequest cb now g true).expiry = (evalState cb now).expiry ∧
      (afterRequest cb now g true).evs = (evalState cb now).evs ∧
      (afterRequest cb now g true).counts = (evalState cb now).counts.onSuccess) := by
  constructor
  · cases s
    · exact afterRequest_failure_eq cb now g
    · rcases h with h | h | h
      · exact afterRequest_success_eq cb now g h
      · rw [afterRequest_stale cb now g true h]
        simp [afterRequestV, currentState, h]
      · exact absurd h (by simp)
  · intro hcl hg
    rw [afterRequest_success_closed cb now g hg hcl]
    exact ⟨rfl, rfl, rfl, rfl, rfl⟩

/-- C10, witness: on the half-open breaker `halfOpenTwoSucc` with token
9, the two implementations agree on a success report (and the
Closed-state clause holds vacuously). -/
theorem afterRequest_variants_equiv_witness :
    afterRequest halfOpenTwoSucc 50 9 true = afterRequestV halfOpenTwoSucc 50 9 true ∧
    ((evalState halfOpenTwoSucc 50).state = State.closed →
      (evalState halfOpenTwoSucc 50).generation = 9 →
      (afterRequest halfOpenTwoSucc 50 9 true).state = (evalState halfOpenTwoSucc 50).state ∧
      (afterRequest halfOpenTwoSucc 50 9 true).generation =
        (evalState halfOpenTwoSucc 50).generation ∧
      (afterRequest halfOpenTwoSucc 50 9 true).expiry = (evalState halfOpenTwoSucc 50).expiry ∧
      (afterRequest halfOpenTwoSucc 50 9 true).evs = (evalState halfOpenTwoSucc 50).evs ∧
      (afterRequest halfOpenTwoSucc 50 9 true).counts =
        (evalState halfOpenTwoSucc 50).counts.onSuccess) :=
  afterRequest_variants_equiv halfOpenTwoSucc 50 9 true (Or.inl (by decide))

lemma beforeRequest_evalHalfOpen (c : CB) (now : Time)
    (h : (evalState c now).state = State.halfOpen) :
    beforeRequest c now =
      if (evalState c now).counts.currRequests ≥ (evalState c now).maxRequests then
        (evalState c now, (evalState c now).generation, some AdmitErr.errTooManyRequests)
      else
        ({ evalState c now with counts := { (evalState c now).counts with
            currRequests := inc32 (evalState c now).counts.currRequests } },
         (evalState c now).generation, none) := by
  simp [beforeRequest, h]

lemma reportN_halfOpen_succ (cb : CB) (now : Time) (g N : Nat)
    (hs : cb.state = State.halfOpen) (hg : cb.generation = g)
    (hcs : cb.counts.consecutiveSuccesses = 0)
    (hmax : cb.maxRequests = N) (hN : N < U32) :
    ∀ k, k < N →
      (reportN cb now g true k).state = State.halfOpen ∧
      (reportN cb now g true k).generation = g ∧
      (reportN cb now g true k).counts.consecutiveSuccesses = k ∧
      (reportN cb now g true k).maxRequests = N := by
  intro k
  induction k with
  | zero => exact fun _ => ⟨hs, hg, hcs, hmax⟩
  | succ n ih =>
      intro hlt
      have hNlit : N < 4294967296 := hN
      obtain ⟨h1, h2, h3, h4⟩ := ih (by omega)
      rw [reportN_succ]
      set c := reportN cb now g true n
      have he : evalState c now = c := evalState_halfOpen c now h1
      have hcs' : inc32 c.counts.consecutiveSuccesses = n + 1 := by
        rw [h3]; show (n + 1) % 4294967296 = n + 1; omega
      have hcond : ¬ (N ≤ n + 1) := by omega
      simp only [afterRequest, he, h2, ne_eq, not_true_eq_false, if_false, if_true]
      simp [hcs', h4, hcond, h1, h2]

lemma admitN_halfOpen (c : CB) (now : Time) (N : Nat)
    (hs : c.state = State.halfOpen) (hmax : c.maxRequests = N) (hN : N < U32) :
    ∀ k, k + c.counts.currRequests ≤ N →
      (admitN c now k).state = State.halfOpen ∧
      (admitN c now k).counts.currRequests = c.counts.currRequests + k ∧
      (admitN c now k).maxRequests = N := by
  intro k
  induction k with
  | zero => exact fun _ => ⟨hs, rfl, hmax⟩
  | succ n ih =>
      intro hle
      have hNlit : N < 4294967296 := hN
      obtain ⟨h1, h2, h3⟩ := ih (by omega)
      rw [admitN_succ]
      set cn := admitN c now n
      have he : evalState cn now = cn := evalState_halfOpen cn now h1
      have hb := beforeRequest_evalHalfOpen cn now (by rw [he]; exact h1)
      rw [he] at hb
      have hcond : ¬ (cn.counts.currRequests ≥ cn.maxRequests) := by
        rw [h2, h3]; omega
      rw [hb, if_neg hcond]
      refine ⟨h1, ?_, h3⟩
      show inc32 cn.counts.currRequests = c.counts.currRequests + (n + 1)
      rw [h2]
      show (c.counts.currRequests + n + 1) % 4294967296 =
        c.counts.currRequests + (n + 1)
      omega

/-- C5: from HalfOpen with `maxRequests = N` and a fresh consecutive
streak: fewer than N success reports leave the breaker HalfOpen; the Nth
consecutive success report transitions it to Closed; and while HalfOpen
an admission check fails with `ErrTooManyRequests` precisely when
`currRequests` has already reached N. -/
theorem halfOpen_closes_after_N (cb : CB) (now : Time) (g N : Nat)
    (hs : cb.state = State.halfOpen) (hg : cb.generation = g)
    (hcs : cb.counts.consecutiveSuccesses = 0)
    (hmax : cb.maxRequests = N) (hN1 : 1 ≤ N) (hN : N < U32) :
    (reportN cb now g true N).state = State.closed ∧
    (∀ k, k < N → (reportN cb now g true k).state = State.halfOpen) ∧
    (∀ c : CB, c.state = State.halfOpen → c.maxRequests = N →
      ((beforeRequest c now).2.2 = some AdmitErr.errTooManyRequests ↔
        N ≤ c.counts.currRequests)) := by
  refine ⟨?_, fun k hk => (reportN_halfOpen_succ cb now g N hs hg hcs hmax hN k hk).1, ?_⟩
  · obtain ⟨M, rfl⟩ : ∃ M, N = M + 1 := ⟨N - 1, by omega⟩
    have hNlit : M + 1 < 4294967296 := hN
    obtain ⟨h1, h2, h3, h4⟩ :=
      reportN_halfOpen_succ cb now g (M + 1) hs hg hcs hmax hN M (by omega)
    rw [reportN_succ]
    set c := reportN cb now g true M
    have he : evalState c now = c := evalState_halfOpen c now h1
    have hcs' : inc32 c.counts.consecutiveSuccesses = M + 1 := by
      rw [h3]; show (M + 1) % 4294967296 = M + 1; omega
    simp only [afterRequest, he, h2, ne_eq, not_true_eq_false, if_false, if_true]
    simp [hcs', h4, setState, toNewGeneration, h1]
  · intro c hsc hmc
    have he : evalState c now = c := evalState_halfOpen c now hsc
    have hb := beforeRequest_evalHalfOpen c now (by rw [he]; exact hsc)
    rw [he] at hb
    rw [hb, hmc]
    split
    · next hcond => simpa using hcond
    · next hcond => simpa using hcond

/-- C3, counterexample: `openAt160` tripped at `t0 = 100` with
`timeout = 60` (expiry 160).  The claim says the first observation at
`t ≥ 160` — including `t` exactly `160` — finds HalfOpen and admits, but
at exactly `t = 160` the breaker still reports Open and the admission
check still fails with `ErrOpenState`: `expiry.Before(now)` is strict. -/
theorem open_cooldown_boundary_cex :
    openAt160.expiry = 100 + 60 ∧
    (StateOp openAt160 160).2 = State.opened ∧
    (beforeRequest openAt160 160).2.2 = some AdmitErr.errOpenState ∧
    State.opened ≠ State.halfOpen := by
  decide

/-- C3, amended: after tripping to Open at `t0` with `openTimeout = D`
(expiry `t0 + D`), every admission check at `t ≤ t0 + D` fails with
`ErrOpenState` and changes nothing; the first observation at any
`t > t0 + D` finds the breaker HalfOpen and then admits exactly
`maxRequests` probes before failing with `ErrTooManyRequests`. -/
theorem open_cooldown (cb : CB) (t0 D : Int) (N : Nat)
    (hs : cb.state = State.opened) (hexp : cb.expiry = t0 + D)
    (hmax : cb.maxRequests = N) (hN1 : 1 ≤ N) (hN : N < U32) :
    (∀ t, t ≤ t0 + D →
      (StateOp cb t).2 = State.opened ∧
      (beforeRequest cb t).2.2 = some AdmitErr.errOpenState ∧
      (beforeRequest cb t).1 = cb) ∧
    (∀ t, t0 + D < t →
      (StateOp cb t).2 = State.halfOpen ∧
      (∀ k, k < N → (beforeRequest (admitN cb t k) t).2.2 = none) ∧
      (beforeRequest (admitN cb t N) t).2.2 = some AdmitErr.errTooManyRequests) := by
  constructor
  · intro t ht
    have hstay : ¬ cb.expiry < t := by rw [hexp]; exact not_lt.mpr ht
    have he : evalState cb t = cb := evalState_open_stay cb t hs hstay
    have hb : beforeRequest cb t = (cb, cb.generation, some AdmitErr.errOpenState) := by
      simp [beforeRequest, he, hs]
    exact ⟨by simp [StateOp, currentState, he, hs], by rw [hb], by rw [hb]⟩
  · intro t ht
    have hlt : cb.expiry < t := by rw [hexp]; exact ht
    have he : evalState cb t = setState cb State.halfOpen t :=
      evalState_open_half cb t hs hlt
    set cH := setState cb State.halfOpen t with hH
    have hHst : cH.state = State.halfOpen := by
      simp [hH, setState, toNewGeneration, hs]
    have hHcr : cH.counts.currRequests = 0 := by
      simp [hH, setState, toNewGeneration, hs, Counts.zero]
    have hHmax : cH.maxRequests = N := by
      simp [hH, setState, toNewGeneration, hs, hmax]
    have hb1 : beforeRequest cb t =
        ({ cH with counts := { cH.counts with
            currRequests := inc32 cH.counts.currRequests } },
         cH.generation, none) := by
      have hb := beforeRequest_evalHalfOpen cb t (by rw [he]; exact hHst)
      rw [he] at hb
      rw [hb, if_neg (by rw [hHcr, hHmax]; omega)]
    set c1 : CB := { cH with counts := { cH.counts with
        currRequests := inc32 cH.counts.currRequests } } with hc1
    have hc1st : c1.state = State.halfOpen := hHst
    have hc1cr : c1.counts.currRequests = 1 := by
      simp [hc1, hHcr, inc32, U32]
    have hc1max : c1.maxRequests = N := hHmax
    have hshift : ∀ k, admitN cb t (k + 1) = admitN c1 t k := by
      intro k
      unfold admitN
      rw [Function.iterate_succ_apply]
      rw [show (beforeRequest cb t).1 = c1 by rw [hb1]]
    refine ⟨by simp [StateOp, currentState, he, hHst], ?_, ?_⟩
    · intro k hk
      cases k with
      | zero =>
          show (beforeRequest (admitN cb t 0) t).2.2 = none
          rw [show admitN cb t 0 = cb from rfl, hb1]
      | succ n =>
          rw [hshift]
          obtain ⟨g1, g2, g3⟩ := admitN_halfOpen c1 t N hc1st hc1max hN n
            (by rw [hc1cr]; omega)
          have he2 : evalState (admitN c1 t n) t = admitN c1 t n :=
            evalState_halfOpen _ t g1
          have hb2 := beforeRequest_evalHalfOpen (admitN c1 t n) t (by rw [he2]; exact g1)
          rw [he2] at hb2
          rw [hb2, if_neg (by rw [g2, g3, hc1cr]; omega)]
    · obtain ⟨M, hM⟩ : ∃ M, N = M + 1 := ⟨N - 1, by omega⟩
      rw [hM, hshift]
      obtain ⟨g1, g2, g3⟩ := admitN_halfOpen c1 t N hc1st hc1max hN M
        (by rw [hc1cr]; omega)
      have he2 : evalState (admitN c1 t M) t = admitN c1 t M :=
        evalState_halfOpen _ t g1
      have hb2 := beforeRequest_evalHalfOpen (admitN c1 t M) t (by rw [he2]; exact g1)
      rw [he2] at hb2
      rw [hb2, if_pos (by rw [g2, g3, hc1cr]; omega)]

/-- C5, witness: `halfOpenFresh` (`maxRequests = 3`): closed after 3
successes, still half-open after 2, and rejection iff `currRequests`
reached 3. -/
theorem halfOpen_closes_after_N_witness :
    (reportN halfOpenFresh 70 11 true 3).state = State.closed ∧
    (reportN halfOpenFresh 70 11 true 2).state = State.halfOpen ∧
    ((beforeRequest halfOpenFresh 70).2.2 = some AdmitErr.errTooManyRequests ↔
      3 ≤ halfOpenFresh.counts.currRequests) := by
  have h := halfOpen_closes_after_N halfOpenFresh 70 11 3 rfl rfl rfl rfl
    (by decide) (by decide)
  exact ⟨h.1, h.2.1 2 (by decide), h.2.2 halfOpenFresh rfl rfl⟩

/-- C3, witness: `openAt160Max2` (tripped at 100, timeout 60,
`maxRequests = 2`): at `t = 160` still Open and rejecting; at `t = 161`
half-open, two probes admitted, the third rejected. -/
theorem open_cooldown_witness :
    ((StateOp openAt160Max2 160).2 = State.opened ∧
     (beforeRequest openAt160Max2 160).2.2 = some AdmitErr.errOpenState ∧
     (beforeRequest openAt160Max2 160).1 = openAt160Max2) ∧
    ((StateOp openAt160Max2 161).2 = State.halfOpen ∧
     (beforeRequest (admitN openAt160Max2 161 1) 161).2.2 = none ∧
     (beforeRequest (admitN openAt160Max2 161 2) 161).2.2 =
       some AdmitErr.errTooManyRequests) := by
  have h := open_cooldown openAt160Max2 100 60 2 rfl rfl rfl (by decide) (by decide)
  have h1 := h.1 160 (by decide)
  have h2 := h.2 161 (by decide)
  exact ⟨⟨h1.1, h1.2.1, h1.2.2⟩, ⟨h2.1, h2.2.1 1 (by decide), h2.2.2⟩⟩

lemma consecInv_toNewGeneration (cb : CB) (now : Time) :
    ConsecInv (toNewGeneration cb now) :=
  Or.inl rfl

lemma consecInv_setState (cb : CB) (st : State) (now : Time) (h : ConsecInv cb) :
    ConsecInv (setState cb st now) := by
  unfold setState
  split
  · exact h
  · exact Or.inl rfl

lemma consecInv_evalState (cb : CB) (now : Time) (h : ConsecInv cb) :
    ConsecInv (evalState cb now) := by
  cases hst : cb.state with
  | closed =>
      by_cases hc : cb.expiry ≠ 0 ∧ cb.expiry < now
      · rw [evalState_closed_reset cb now hst hc.1 hc.2]
        exact consecInv_toNewGeneration cb now
      · rw [evalState_closed_skip cb now hst hc]
        exact h
  | halfOpen =>
      rw [evalState_halfOpen cb now hst]
      exact h
  | opened =>
      by_cases hc : cb.expiry < now
      · rw [evalState_open_half cb now hst hc]
        exact consecInv_setState cb _ now h
      · rw [evalState_open_stay cb now hst hc]
        exact h

lemma consecInv_beforeRequest (cb : CB) (now : Time) (h : ConsecInv cb) :
    ConsecInv (beforeRequest cb now).1 := by
  have h1 := consecInv_evalState cb now h
  simp only [beforeRequest]
  split
  · exact h1
  · split
    · exact h1
    · exact h1

lemma consecInv_afterRequest (cb : CB) (now : Time) (g : Nat) (s : Bool)
    (h : ConsecInv cb) : ConsecInv (afterRequest cb now g s) := by
  have h1 := consecInv_evalState cb now h
  simp only [afterRequest]
  split
  · exact h1
  · split
    · split
      · exact consecInv_setState _ _ _ (Or.inr rfl)
      · exact Or.inr rfl
    · split
      · split
        · exact consecInv_setState _ _ _ (Or.inl rfl)
        · exact Or.inl rfl
      · exact consecInv_setState _ _ _ h1
      · exact h1

lemma consecInv_afterRequestV (cb : CB) (now : Time) (g : Nat) (s : Bool)
    (h : ConsecInv cb) : ConsecInv (afterRequestV cb now g s) := by
  have h1 := consecInv_evalState cb now h
  simp only [afterRequestV, currentState]
  split
  · exact h1
  · split
    · simp only [onSuccessV]
      split
      · exact Or.inr rfl
      · split
        · exact consecInv_setState _ _ _ (Or.inr rfl)
        · exact Or.inr rfl
      · exact h1
    · simp only [onFailureV]
      split
      · split
        · exact consecInv_setState _ _ _ (Or.inl rfl)
        · exact Or.inl rfl
      · exact consecInv_setState _ _ _ h1
      · exact h1

lemma consecInv_new (cfg : Config) (now : Time) :
    ConsecInv (NewCircuitBreaker cfg now) :=
  Or.inl rfl

/-- C8: every reachable breaker state has at most one non-zero
consecutive counter; moreover a current-generation success report leaves
`consecutiveFailures = 0`, a current-generation failure report counted
while Closed leaves `consecutiveSuccesses = 0`, and a generation change
zeroes both. -/
theorem consecutive_counters_exclusive :
    (∀ cb, Reachable cb → ConsecInv cb) ∧
    (∀ cb : CB, ∀ now : Time, ∀ g : Nat, (evalState cb now).generation = g →
      (afterRequest cb now g true).counts.consecutiveFailures = 0) ∧
    (∀ cb : CB, ∀ now : Time, ∀ g : Nat, (evalState cb now).generation = g →
      (evalState cb now).state = State.closed →
      (afterRequest cb now g false).counts.consecutiveSuccesses = 0) ∧
    (∀ cb : CB, ∀ now : Time,
      (toNewGeneration cb now).counts.consecutiveSuccesses = 0 ∧
      (toNewGeneration cb now).counts.consecutiveFailures = 0) := by
  refine ⟨?_, ?_, ?_, fun cb now => ⟨rfl, rfl⟩⟩
  · intro cb h
    induction h with
    | init cfg now => exact consecInv_new cfg now
    | allow cb now _ ih => exact consecInv_beforeRequest cb now ih
    | report cb now g s _ ih => exact consecInv_afterRequest cb now g s ih
    | reportV cb now g s _ ih => exact consecInv_afterRequestV cb now g s ih
    | observe cb now _ ih => exact consecInv_evalState cb now ih
  · intro cb now g hg
    unfold afterRequest
    simp only [hg, ne_eq, not_true_eq_false, if_false, if_true]
    split
    · unfold setState
      split
      · rfl
      · rfl
    · rfl
  · intro cb now g hg hcl
    unfold afterRequest
    simp only [hg, ne_eq, not_true_eq_false, if_false, Bool.false_eq_true, hcl]
    split
    · unfold setState
      split
      · rfl
      · rfl
    · rfl

/-- C8, witness: the invariant and the three zeroing facts at the
default breaker built at time 0 (generation 1). -/
theorem consecutive_counters_exclusive_witness :
    ConsecInv (afterRequest (NewCircuitBreaker Config.empty 0) 0 1 false) ∧
    (afterRequest (NewCircuitBreaker Config.empty 0) 0 1 true).counts.consecutiveFailures = 0 ∧
    (afterRequest (NewCircuitBreaker Config.empty 0) 0 1 false).counts.consecutiveSuccesses = 0 ∧
    ((toNewGeneration (NewCircuitBreaker Config.empty 0) 0).counts.consecutiveSuccesses = 0 ∧
     (toNewGeneration (NewCircuitBreaker Config.empty 0) 0).counts.consecutiveFailures = 0) := by
  have h := consecutive_counters_exclusive
  exact ⟨h.1 _ (Reachable.report _ 0 1 false (Reachable.init Config.empty 0)),
         h.2.1 _ 0 1 (by decide),
         h.2.2.1 _ 0 1 (by decide) (by decide),
         h.2.2.2 _ 0⟩

end Gobreaker
